import Mathlib

/-!
Verification of the mic-to-text capture program (`src/main.rs`).

The development shallowly embeds the program's data model and operations:

* `CpalSampleFormat`, `SupportedStreamConfig` — the device-side types
  (`cpal::SampleFormat`, `cpal::SupportedStreamConfig`) with the fields and
  methods the program uses (`sample_size`, `is_float`, `channels`,
  `sample_rate`, `sample_format`).
* `HoundSampleFormat`, `WavSpec`, `WavWriter` — the sink-side types: a
  `WavWriter` is modelled by its spec and the list of samples appended so far.
* `wav_spec_from_config`, `sample_format` — direct translations of the two
  pure functions in `main.rs`.
* `write_input_data`, `finalizeSlot`, `runCallbacks` — the shared-slot sink:
  the callback's try-lock write and the main thread's take-and-finalize.
* `runMain` — the orchestrator: the sequential effect trace of `main` plus
  `write_mic_audio_to_file`, parametrised by an environment that decides
  which external steps succeed.
-/

/-- `cpal::SampleFormat`: the native sample encodings a device can report. -/
inductive CpalSampleFormat where
  | i8 | i16 | i32 | i64
  | u8 | u16 | u32 | u64
  | f32 | f64
deriving DecidableEq, Repr

/-- `cpal::SampleFormat::sample_size`: byte width of one sample. -/
def CpalSampleFormat.sample_size : CpalSampleFormat → Nat
  | .i8 | .u8 => 1
  | .i16 | .u16 => 2
  | .i32 | .u32 | .f32 => 4
  | .i64 | .u64 | .f64 => 8

/-- `cpal::SampleFormat::is_float`. -/
def CpalSampleFormat.is_float : CpalSampleFormat → Bool
  | .f32 | .f64 => true
  | _ => false

/-- `cpal::SupportedStreamConfig`: the fields the program reads
(`channels()`, `sample_rate().0`, `sample_format()`). -/
structure SupportedStreamConfig where
  channels : Nat
  sample_rate : Nat
  sampleFormat : CpalSampleFormat
deriving DecidableEq, Repr

/-- `hound::SampleFormat`: integer or IEEE-float storage in the WAV header. -/
inductive HoundSampleFormat where
  | int | float
deriving DecidableEq, Repr

/-- `hound::WavSpec`: the WAV header fields. -/
structure WavSpec where
  channels : Nat
  sample_rate : Nat
  bits_per_sample : Nat
  sampleFormat : HoundSampleFormat
deriving DecidableEq, Repr

/-- `fn sample_format(format: cpal::SampleFormat) -> hound::SampleFormat`:
float formats map to `Float`, everything else to `Int`. -/
def sample_format (format : CpalSampleFormat) : HoundSampleFormat :=
  if format.is_float then HoundSampleFormat.float else HoundSampleFormat.int

/-- `fn wav_spec_from_config`: the WAV header derived from the device
configuration. -/
def wav_spec_from_config (config : SupportedStreamConfig) : WavSpec :=
  { channels := config.channels
    sample_rate := config.sample_rate
    bits_per_sample := config.sampleFormat.sample_size * 8
    sampleFormat := sample_format config.sampleFormat }

/-- One captured or written sample. The program only ever instantiates the
four types `i8`, `i16`, `i32`, `f32`; an `f32` is carried as its bit
pattern, since the program performs no floating-point arithmetic on it. -/
inductive Sample where
  | i8 (v : Int)
  | i16 (v : Int)
  | i32 (v : Int)
  | f32 (bits : Nat)
deriving DecidableEq, Repr

/-- The native format a sample value belongs to. -/
def Sample.format : Sample → CpalSampleFormat
  | .i8 _ => .i8
  | .i16 _ => .i16
  | .i32 _ => .i32
  | .f32 _ => .f32

/-- Bit width of a sample value as stored. -/
def Sample.width : Sample → Nat
  | .i8 _ => 8
  | .i16 _ => 16
  | .i32 _ => 32
  | .f32 _ => 32

/-- Whether a sample value is a floating-point sample. -/
def Sample.isFloat : Sample → Bool
  | .f32 _ => true
  | _ => false

/-- The output sample type chosen by the dispatch in
`write_mic_audio_to_file`: the four supported formats each select
`write_input_data::<T, U>` with `U = T`; any other format hits the
`Unsupported sample format` arm. -/
def outputType : CpalSampleFormat → Option CpalSampleFormat
  | .i8 => some .i8
  | .i16 => some .i16
  | .i32 => some .i32
  | .f32 => some .f32
  | _ => none

/-- `cpal::FromSample` conversion `U::from_sample::<T>` for the sample pairs
relevant here: conversion to the same type is the identity; integer widening
shifts into the high bits. The program only ever uses the diagonal
(`U = T`). Pairs the library defines but the model does not need are
`none`. -/
def from_sample : CpalSampleFormat → Sample → Option Sample
  | .i8, .i8 v => some (.i8 v)
  | .i16, .i16 v => some (.i16 v)
  | .i32, .i32 v => some (.i32 v)
  | .f32, .f32 b => some (.f32 b)
  | .i16, .i8 v => some (.i16 (v * 256))
  | .i32, .i16 v => some (.i32 (v * 65536))
  | .i32, .i8 v => some (.i32 (v * 16777216))
  | _, _ => none

/-- `hound::WavWriter`, modelled by its header spec and the samples appended
so far. -/
structure WavWriter where
  spec : WavSpec
  samples : List Sample
deriving DecidableEq, Repr

/-- The shared slot `Arc<Mutex<Option<WavWriter<...>>>>`: `none` once the
writer has been taken out by finalize. -/
abbrev WriterSlot := Option WavWriter

/-- `fn write_input_data<T, U>`: the audio-callback write. `tryLockOk` is
whether `writer.try_lock()` succeeded. On success, if the writer is still
present every sample of the buffer is converted with `U::from_sample` and
appended; otherwise (lock contended, or writer already taken) the state is
returned unchanged and the buffer is dropped. -/
def write_input_data (tgt : CpalSampleFormat) (tryLockOk : Bool)
    (input : List Sample) (slot : WriterSlot) : WriterSlot :=
  if tryLockOk then
    match slot with
    | some w => some { w with samples := w.samples ++ input.filterMap (from_sample tgt) }
    | none => none
  else
    slot

/-- The finalize path `wav_file_writer_clone.lock().unwrap().take().unwrap()
.finalize()`: take the writer out of the slot (leaving it empty) and return
it; on an already-empty slot `take()` yields `None` and the `unwrap` fails
deterministically, modelled as `none`. -/
def finalizeSlot (slot : WriterSlot) : Option (WavWriter × WriterSlot) :=
  match slot with
  | some w => some (w, none)
  | none => none

/-- The sequence of callback invocations during the recording sleep: each
attempt is (try-lock outcome, delivered buffer). -/
def runCallbacks (tgt : CpalSampleFormat) :
    List (Bool × List Sample) → WriterSlot → WriterSlot
  | [], slot => slot
  | (lk, buf) :: rest, slot => runCallbacks tgt rest (write_input_data tgt lk buf slot)

/-- Observable effects of a run, in program order. -/
inductive Event where
  | fileCreated
  | printed (s : String)
  | streamStarted
  | streamStopped
  | finalized
  | fileRead
  | fileDeleted
deriving DecidableEq, Repr

/-- Environment for a run of `main`: which external steps succeed and what
the device and the callback thread deliver. -/
structure Env where
  deviceAvailable : Bool
  configQueryOk : Bool
  config : SupportedStreamConfig
  buildStreamOk : Bool
  playOk : Bool
  callbacks : List (Bool × List Sample)
  finalizeOk : Bool
  fileReadOk : Bool
  transcription : Except String String
deriving Repr

/-- The run of `main` (including `write_mic_audio_to_file`), as the ordered
list of observable events plus the process-level outcome. Follows the source
order: device open, `wav_spec_from_config`, `WavWriter::create` (which
creates the file on disk), the format dispatch, stream build/play, the
recording sleep during which callbacks fire, stream drop, finalize, file
read, transcription, transcript print, file deletion. -/
def runMain (env : Env) : List Event × Except String Unit :=
  if !env.deviceAvailable then
    ([], Except.error "No input device available")
  else if !env.configQueryOk then
    ([], Except.error "ConfigQueryFailed")
  else
    let cfg := env.config
    let spec := wav_spec_from_config cfg
    let ev := [Event.fileCreated, Event.printed "Begin recording...",
               Event.printed "sample format"]
    match outputType cfg.sampleFormat with
    | none => (ev, Except.error "Unsupported sample format")
    | some tgt =>
      if !env.buildStreamOk then
        (ev, Except.error "StreamStartFailed")
      else if !env.playOk then
        (ev, Except.error "StreamStartFailed")
      else
        let ev := ev ++ [Event.streamStarted]
        let slot : WriterSlot := some { spec := spec, samples := [] }
        let slot := runCallbacks tgt env.callbacks slot
        let ev := ev ++ [Event.streamStopped]
        match finalizeSlot slot with
        | none => (ev, Except.error "finalize on empty slot")
        | some (_w, _empty) =>
          if !env.finalizeOk then
            (ev, Except.error "FinalizeFailed")
          else
            let ev := ev ++ [Event.finalized, Event.printed "Recording complete!"]
            if !env.fileReadOk then
              (ev, Except.error "FileReadFailed")
            else
              let ev := ev ++ [Event.fileRead]
              match env.transcription with
              | Except.error e => (ev, Except.error e)
              | Except.ok t =>
                  (ev ++ [Event.printed t, Event.fileDeleted], Except.ok ())

/-- Exit status of the process given the outcome of `main`. -/
def processExitCode : Except String Unit → Nat
  | Except.ok _ => 0
  | Except.error _ => 1

/-! ### Concrete environments used as witnesses and counterexamples -/

/-- A device reporting unsigned 8-bit samples: a format outside the four
supported kinds. All external steps succeed. -/
def envU8 : Env :=
  { deviceAvailable := true
    configQueryOk := true
    config := { channels := 1, sample_rate := 44100, sampleFormat := CpalSampleFormat.u8 }
    buildStreamOk := true
    playOk := true
    callbacks := []
    finalizeOk := true
    fileReadOk := true
    transcription := Except.ok "hi" }

/-- A host with no default input device. -/
def envNoDevice : Env :=
  { envU8 with deviceAvailable := false }

/-- A fully successful i16 session whose transcription returns a transcript. -/
def envOk : Env :=
  { envU8 with
    config := { channels := 2, sample_rate := 44100, sampleFormat := CpalSampleFormat.i16 }
    callbacks := [(true, [Sample.i16 1]), (true, [Sample.i16 2])]
    transcription := Except.ok "hello world" }

/-- The events of a run that reaches the transcription call, in order. -/
def preTranscriptTrace : List Event :=
  [Event.fileCreated, Event.printed "Begin recording...",
   Event.printed "sample format", Event.streamStarted, Event.streamStopped,
   Event.finalized, Event.printed "Recording complete!", Event.fileRead]

/-! ### Helper lemmas -/

/-- `U::from_sample` at `U = T` is the identity conversion. -/
theorem from_sample_self (s : Sample) : from_sample s.format s = some s := by
  cases s <;> rfl

/-- A present slot stays present across any sequence of callback writes. -/
theorem runCallbacks_isSome (tgt : CpalSampleFormat)
    (cbs : List (Bool × List Sample)) (w : WavWriter) :
    ∃ w2, runCallbacks tgt cbs (some w) = some w2 := by
  induction cbs generalizing w with
  | nil => exact ⟨w, rfl⟩
  | cons a rest ih =>
      rcases a with ⟨lk, buf⟩
      cases lk with
      | false =>
          simpa [runCallbacks, write_input_data] using ih w
      | true =>
          simpa [runCallbacks, write_input_data] using
            ih { w with samples := w.samples ++ buf.filterMap (from_sample tgt) }

/-- Accumulated effect of uncontended single-sample writes on a present
slot: the spec is preserved and each attempt appends exactly one sample. -/
theorem runCallbacks_writes (tgt : CpalSampleFormat)
    (attempts : List (Bool × List Sample)) (spec : WavSpec) (acc : List Sample)
    (h : ∀ a ∈ attempts, a.1 = true ∧ a.2.length = 1 ∧ ∀ s ∈ a.2, s.format = tgt) :
    ∃ w : WavWriter,
      runCallbacks tgt attempts (some { spec := spec, samples := acc }) = some w ∧
      w.spec = spec ∧ w.samples.length = acc.length + attempts.length := by
  induction attempts generalizing acc with
  | nil => exact ⟨{ spec := spec, samples := acc }, rfl, rfl, rfl⟩
  | cons a rest ih =>
      obtain ⟨hlk, hlen, hfmt⟩ := h a (List.mem_cons_self a rest)
      obtain ⟨s, hs⟩ := List.length_eq_one.mp hlen
      have hsf : s.format = tgt := hfmt s (hs ▸ List.mem_cons_self s [])
      obtain ⟨w, hw, hwspec, hwlen⟩ :=
        ih (acc ++ [s]) (fun b hb => h b (List.mem_cons_of_mem a hb))
      refine ⟨w, ?_, hwspec, ?_⟩
      · have hconv : from_sample tgt s = some s := hsf ▸ from_sample_self s
        simp [runCallbacks, write_input_data, hlk, hs, hconv] at hw ⊢
        exact hw
      · simp only [hwlen, List.length_append, List.length_cons, List.length_nil]
        omega

/-! ### Claims -/

/-- C1 (counterexample): with a device reporting `u8` — outside the four
supported formats — the run does fail with the unsupported-sample-format
error before the stream starts, but the WAV file has already been created
on disk (`WavWriter::create` in `main` runs before the format dispatch), so
the claim "before any file is created on disk" is false. -/
theorem claim_c1_counterexample :
    (runMain envU8).2 = Except.error "Unsupported sample format" ∧
    Event.fileCreated ∈ (runMain envU8).1 ∧
    Event.streamStarted ∉ (runMain envU8).1 := by
  refine ⟨rfl, ?_, ?_⟩ <;> simp [runMain, envU8, outputType]

/-- C1 (amended): if the negotiated native format is outside the four
supported representations, the session fails with the
unsupported-sample-format error before the stream starts — but only after
the WAV file has already been created on disk by `main`. -/
theorem claim_c1 (env : Env)
    (hdev : env.deviceAvailable = true) (hcfg : env.configQueryOk = true)
    (hfmt : outputType env.config.sampleFormat = none) :
    (runMain env).2 = Except.error "Unsupported sample format" ∧
    Event.streamStarted ∉ (runMain env).1 ∧
    Event.fileCreated ∈ (runMain env).1 := by
  refine ⟨?_, ?_, ?_⟩ <;> simp [runMain, hdev, hcfg, hfmt]

/-- C1 witness: the amended claim holds at the concrete `u8` environment. -/
theorem claim_c1_witness :
    (runMain envU8).2 = Except.error "Unsupported sample format" ∧
    Event.streamStarted ∉ (runMain envU8).1 ∧
    Event.fileCreated ∈ (runMain envU8).1 :=
  claim_c1 envU8 rfl rfl rfl

/-- C2: for any sequence of N write attempts in which every try-lock
succeeds and each attempt writes one sample of the negotiated format to the
(present) sink, finalize succeeds and yields a writer holding exactly N
samples under the header spec derived from the configuration the sink was
created with. -/
theorem claim_c2 (cfg : SupportedStreamConfig)
    (attempts : List (Bool × List Sample))
    (h : ∀ a ∈ attempts, a.1 = true ∧ a.2.length = 1 ∧
         ∀ s ∈ a.2, s.format = cfg.sampleFormat) :
    ∃ w : WavWriter,
      finalizeSlot (runCallbacks cfg.sampleFormat attempts
        (some { spec := wav_spec_from_config cfg, samples := [] })) =
        some (w, none) ∧
      w.samples.length = attempts.length ∧
      w.spec = wav_spec_from_config cfg := by
  obtain ⟨w, hw, hspec, hlen⟩ :=
    runCallbacks_writes cfg.sampleFormat attempts (wav_spec_from_config cfg) [] h
  exact ⟨w, by simp [hw, finalizeSlot], by simpa using hlen, hspec⟩

/-- C2 witness: two uncontended single-sample i16 writes give a finalized
writer with two samples and the derived header. -/
theorem claim_c2_witness :
    ∃ w : WavWriter,
      finalizeSlot (runCallbacks CpalSampleFormat.i16
        [(true, [Sample.i16 1]), (true, [Sample.i16 2])]
        (some { spec := wav_spec_from_config
                  { channels := 2, sample_rate := 44100,
                    sampleFormat := CpalSampleFormat.i16 },
                samples := [] })) = some (w, none) ∧
      w.samples.length = 2 ∧
      w.spec = wav_spec_from_config
        { channels := 2, sample_rate := 44100,
          sampleFormat := CpalSampleFormat.i16 } :=
  claim_c2 { channels := 2, sample_rate := 44100,
             sampleFormat := CpalSampleFormat.i16 }
    [(true, [Sample.i16 1]), (true, [Sample.i16 2])] (by decide)

/-- C3: once finalize has taken the writer out of the shared slot, every
later write attempt is a no-op: whatever the try-lock outcome and the
buffer, the empty slot is left unchanged and no writer is touched. -/
theorem claim_c3 (tgt : CpalSampleFormat) (tryLockOk : Bool)
    (input : List Sample) :
    write_input_data tgt tryLockOk input none = none := by
  cases tryLockOk <;> rfl

/-- C4: exactly one finalize succeeds: on a present slot, finalize returns
the writer and leaves the slot empty; a second finalize attempt on the
emptied slot fails deterministically (the `take()` yields nothing) rather
than releasing anything twice. -/
theorem claim_c4 (w : WavWriter) :
    finalizeSlot (some w) = some (w, none) ∧
    finalizeSlot (none : WriterSlot) = none :=
  ⟨rfl, rfl⟩

/-- C5: the WAV header is a deterministic function of the device
configuration: channels and sample rate are copied, bits-per-sample is the
native format's byte width times 8, and the format flag is `Float` exactly
when the native format is floating point. -/
theorem claim_c5 (cfg : SupportedStreamConfig) :
    (wav_spec_from_config cfg).channels = cfg.channels ∧
    (wav_spec_from_config cfg).sample_rate = cfg.sample_rate ∧
    (wav_spec_from_config cfg).bits_per_sample = cfg.sampleFormat.sample_size * 8 ∧
    ((wav_spec_from_config cfg).sampleFormat = HoundSampleFormat.float ↔
      cfg.sampleFormat.is_float = true) := by
  refine ⟨rfl, rfl, rfl, ?_⟩
  cases h : cfg.sampleFormat.is_float <;>
    simp [wav_spec_from_config, sample_format, h]

/-- C6: for each supported native representation, the output sample type
selected by the dispatch produces samples whose bit width equals the derived
header's bits-per-sample and whose integer/float kind matches the derived
header's sample-format flag. -/
theorem claim_c6 (cfg : SupportedStreamConfig) (u : CpalSampleFormat)
    (s : Sample) (hu : outputType cfg.sampleFormat = some u)
    (hs : s.format = u) :
    s.width = (wav_spec_from_config cfg).bits_per_sample ∧
    (s.isFloat = true ↔
      (wav_spec_from_config cfg).sampleFormat = HoundSampleFormat.float) := by
  subst hs
  rcases cfg with ⟨c, r, f⟩
  cases f <;> cases s <;>
    simp_all [outputType, Sample.format, Sample.width, Sample.isFloat,
      wav_spec_from_config, sample_format, CpalSampleFormat.sample_size,
      CpalSampleFormat.is_float]

/-- C6 witness: the f32 case at a concrete configuration and sample. -/
theorem claim_c6_witness :
    (Sample.f32 0).width =
      (wav_spec_from_config
        { channels := 1, sample_rate := 8000,
          sampleFormat := CpalSampleFormat.f32 }).bits_per_sample ∧
    ((Sample.f32 0).isFloat = true ↔
      (wav_spec_from_config
        { channels := 1, sample_rate := 8000,
          sampleFormat := CpalSampleFormat.f32 }).sampleFormat =
        HoundSampleFormat.float) :=
  claim_c6 { channels := 1, sample_rate := 8000,
             sampleFormat := CpalSampleFormat.f32 }
    CpalSampleFormat.f32 (Sample.f32 0) rfl rfl

/-- C7: the callback-side write never blocks: whenever the guarded slot is
unavailable — the try-lock failed, or the writer has already been taken —
the whole buffer is dropped and the slot (and hence the file) is left
unchanged. -/
theorem claim_c7 (tgt : CpalSampleFormat) (tryLockOk : Bool)
    (input : List Sample) (slot : WriterSlot)
    (h : tryLockOk = false ∨ slot = none) :
    write_input_data tgt tryLockOk input slot = slot := by
  rcases h with h | h
  · simp [write_input_data, h]
  · subst h
    cases tryLockOk <;> rfl

/-- C7 witness: a contended write at a concrete present slot is dropped. -/
theorem claim_c7_witness :
    write_input_data CpalSampleFormat.i16 false [Sample.i16 3]
      (some { spec := wav_spec_from_config
                { channels := 1, sample_rate := 8000,
                  sampleFormat := CpalSampleFormat.i16 },
              samples := [] }) =
      some { spec := wav_spec_from_config
                { channels := 1, sample_rate := 8000,
                  sampleFormat := CpalSampleFormat.i16 },
              samples := [] } :=
  claim_c7 CpalSampleFormat.i16 false [Sample.i16 3] _ (Or.inl rfl)

/-- C8: with no default input device, the run fails with the
no-input-device message before any file is created, and the process
terminates with a non-zero exit status carrying that human-readable
message. -/
theorem claim_c8 (env : Env) (h : env.deviceAvailable = false) :
    (runMain env).2 = Except.error "No input device available" ∧
    Event.fileCreated ∉ (runMain env).1 ∧
    processExitCode (runMain env).2 ≠ 0 := by
  refine ⟨?_, ?_, ?_⟩ <;> simp [runMain, h, processExitCode]

/-- C8 witness: the concrete no-device environment. -/
theorem claim_c8_witness :
    (runMain envNoDevice).2 = Except.error "No input device available" ∧
    Event.fileCreated ∉ (runMain envNoDevice).1 ∧
    processExitCode (runMain envNoDevice).2 ≠ 0 :=
  claim_c8 envNoDevice rfl

/-- C9: in a session where every step up to and including the file read
succeeds, the temporary file is deleted iff the transcription call
succeeds: on success the trace ends with the transcript being printed and
then the file deleted; on failure the run aborts with the transcription
error and no deletion event ever occurs. -/
theorem claim_c9 (env : Env) (tgt : CpalSampleFormat)
    (hdev : env.deviceAvailable = true) (hcfg : env.configQueryOk = true)
    (hfmt : outputType env.config.sampleFormat = some tgt)
    (hbuild : env.buildStreamOk = true) (hplay : env.playOk = true)
    (hfin : env.finalizeOk = true) (hread : env.fileReadOk = true) :
    (runMain env).1 = preTranscriptTrace ++
      (match env.transcription with
       | Except.ok t => [Event.printed t, Event.fileDeleted]
       | Except.error _ => []) ∧
    (runMain env).2 = env.transcription.map (fun _ => ()) ∧
    Event.fileDeleted ∉ preTranscriptTrace := by
  obtain ⟨w2, hw2⟩ := runCallbacks_isSome tgt env.callbacks
    { spec := wav_spec_from_config env.config, samples := [] }
  refine ⟨?_, ?_, by decide⟩ <;>
    cases htr : env.transcription <;>
      simp [runMain, hdev, hcfg, hfmt, hbuild, hplay, hfin, hread, hw2,
        finalizeSlot, htr, preTranscriptTrace, Except.map]

/-- C9 witness: the fully successful i16 session deletes the file after
printing the transcript. -/
theorem claim_c9_witness :
    (runMain envOk).1 = preTranscriptTrace ++
      (match envOk.transcription with
       | Except.ok t => [Event.printed t, Event.fileDeleted]
       | Except.error _ => []) ∧
    (runMain envOk).2 = envOk.transcription.map (fun _ => ()) ∧
    Event.fileDeleted ∉ preTranscriptTrace :=
  claim_c9 envOk CpalSampleFormat.i16 rfl rfl rfl rfl rfl rfl rfl

/-- C10: for every supported native format the dispatch picks the native
type itself as the output type, and on samples of that type the
`from_sample` conversion is the identity: the written sample equals the
captured one. -/
theorem claim_c10 (f u : CpalSampleFormat) (s : Sample)
    (hu : outputType f = some u) (hs : s.format = f) :
    u = f ∧ from_sample u s = some s := by
  have huf : u = f := by
    cases f <;> simp [outputType] at hu <;> exact hu.symm
  subst huf
  subst hs
  exact ⟨rfl, from_sample_self s⟩

/-- C10 witness: an i32 sample passes through unchanged. -/
theorem claim_c10_witness :
    CpalSampleFormat.i32 = CpalSampleFormat.i32 ∧
    from_sample CpalSampleFormat.i32 (Sample.i32 7) = some (Sample.i32 7) :=
  claim_c10 CpalSampleFormat.i32 CpalSampleFormat.i32 (Sample.i32 7) rfl rfl
